import Mathlib

/-!
Shallow embedding of `src/pb-alloc.c` (a pointer-bumping allocator with a
first-fit free list) and verification of the specification claims.

Memory is modelled byte by byte: `Mem` maps a byte address (an `Int`) to the
byte stored there.  Every header access in the source reads or writes one
64-bit word (`size_t` or a pointer) at an exact byte address, so words are
read and written little-endian through `readW`/`writeW`.  `mmap` zero-fills
the reserved region; the model's initial memory is zero everywhere, so a read
outside the arena (which the buggy scan paths of the source can perform, and
which would fault a real process) yields 0 in the model.

Obvious syntax slips of the source are repaired where the surrounding lines
fix the intent (noted line by line below); every semantic choice of the
source — the header offsets, the guard conditions, the missing `return` on
the carve path — is kept as written.
-/

namespace PbAlloc

/-- Byte-addressed memory: address to byte value. -/
def Mem : Type := Int → Nat

/-- Store one byte. -/
def setB (m : Mem) (a : Int) (b : Nat) : Mem := fun x => if x = a then b else m x

/-- Read a 64-bit little-endian word starting at byte address `a`. -/
def readW (m : Mem) (a : Int) : Nat :=
  m a + 256 * m (a + 1) + 65536 * m (a + 2) + 16777216 * m (a + 3)
    + 4294967296 * m (a + 4) + 1099511627776 * m (a + 5)
    + 281474976710656 * m (a + 6) + 72057594037927936 * m (a + 7)

/-- Write a 64-bit little-endian word at byte address `a`. -/
def writeW (m : Mem) (a : Int) (v : Nat) : Mem := fun x =>
  if x = a then v % 256
  else if x = a + 1 then v / 256 % 256
  else if x = a + 2 then v / 65536 % 256
  else if x = a + 3 then v / 16777216 % 256
  else if x = a + 4 then v / 4294967296 % 256
  else if x = a + 5 then v / 1099511627776 % 256
  else if x = a + 6 then v / 281474976710656 % 256
  else if x = a + 7 then v / 72057594037927936 % 256
  else m x

/-!
Allocator state.  The four static variables of the source (lines 29-32):
`free_ptr` (dual purpose: bump cursor before any release, free-list head
after), `last_unallocated_free_ptr` (the bump frontier used by the carve
path), `start_ptr` and `end_ptr` (arena bounds).  C zero-initializes
statics, so all four start at 0 (NULL).  Three extra fields model the
environment and observable side effects of `init` (lines 46-61):
`mmapFails` — whether the single `mmap` call would fail; `reservations` —
how many successful `mmap` reservations have been performed; `fatal` —
whether `exit(1)` (or an `assert` failure) has terminated the process.
-/

structure Heap where
  mem : Mem
  free_ptr : Int
  last_unalloc : Int
  start_ptr : Int
  end_ptr : Int
  reservations : Nat
  mmapFails : Bool
  fatal : Bool

/-- HEAP_SIZE = GB(2) (line 26). -/
def HEAP_SIZE : Int := 2147483648

/-- The address `mmap` returns for the single reservation (OS-chosen; a
fixed page-aligned constant in the model). -/
def mmapBase : Int := 4096

/-- The process's starting state: zero-initialized statics, zero memory. -/
def initState : Heap :=
  { mem := fun _ => 0, free_ptr := 0, last_unalloc := 0, start_ptr := 0,
    end_ptr := 0, reservations := 0, mmapFails := false, fatal := false }

/-- init (lines 46-61): guarded solely by `free_ptr == NULL`; on success
maps the arena and sets `start_ptr`/`end_ptr`; on `MAP_FAILED` calls
`exit(1)`. -/
def init (h : Heap) : Heap :=
  if h.free_ptr = 0 then
    if h.mmapFails then { h with fatal := true }
    else
      { h with free_ptr := mmapBase, start_ptr := mmapBase,
               end_ptr := mmapBase + HEAP_SIZE,
               reservations := h.reservations + 1 }
  else h

/-- noNext (lines 154-159): the header is taken at `ptr - sizeof(size_t)`
(line 155, with the parenthesization of the identical idiom at lines 116,
141 and 243; line 156's `link_s* -> next` read as `block_header -> next`),
so the `next` field inspected lies at `(ptr - 8) + 8 = ptr`. -/
def noNext (m : Mem) (ptr : Int) : Bool := readW m ((ptr - 8) + 8) == 0

/-- The carve path (lines 139-151): header at
`last_unallocated_free_ptr - sizeof(size_t)` (line 141, closing paren
restored), `size` and `next = NULL` stored, frontier moved to
`header + sizeof(link_s) + size + sizeof(size_t)` (line 145).  The source
reaches line 151 without a `return` statement, so the caller receives no
defined value: the result is `none`. -/
def bump (h : Heap) (size : Nat) : Heap × Option Int :=
  let hdr := h.last_unalloc - 8
  let m2 := writeW (writeW h.mem hdr size) (hdr + 8) 0
  ({ h with mem := m2, last_unalloc := hdr + 16 + (size : Int) + 8 }, none)

/-- The first-fit scan (lines 110-137), with explicit fuel since nothing in
the source bounds the walk.  `free_block_header` is recovered at
`iterator - sizeof(size_t)` (line 116); the candidate size is the word
there; the payload handed out is `header + sizeof(link_s)` (line 120);
line 126's `new_link_ptr` is read as the `new_block_ptr` computed on
line 120, and line 135's `previous_free_block_header` as
`previous_free_block` (the only declared variables those lines can mean).
On the head match (lines 124-127) the source returns without clearing the
node's `next` field. -/
def ffLoop : Nat → Heap → Int → Int → Nat → Heap × Option Int
  | 0, h, _, _, _ => (h, none)
  | fuel + 1, h, it, prev, size =>
    if it = 0 then bump h size
    else
      let hdr := it - 8
      let bsize := readW h.mem hdr
      if size ≤ bsize then
        if prev = 0 then
          ({ h with free_ptr := ((readW h.mem (hdr + 8) : Nat) : Int) },
           some (hdr + 16))
        else
          let m2 := writeW (writeW h.mem (prev + 8) (readW h.mem (hdr + 8)))
            (hdr + 8) 0
          ({ h with mem := m2 }, some (hdr + 16))
      else
        ffLoop fuel h ((readW h.mem (hdr + 8) : Nat) : Int) hdr size

/-- Fuel for the scan; ample for every execution considered here. -/
def mallocFuel : Nat := 1000

/-- malloc (lines 86-151).  Line 94's guard is
`start_ptr == (intptr_t)free_ptr || noNext(free_ptr)` (cast paren
restored); the edge path (lines 94-106) carves at `free_ptr` itself,
returns `free_ptr + sizeof(link_s)`, and moves the frontier to
`new_block_ptr + size + sizeof(size_t)` (line 102, closing paren restored)
without ever advancing `free_ptr`. -/
def malloc (h0 : Heap) (size : Nat) : Heap × Option Int :=
  let h := init h0
  if h.fatal then (h, none)
  else if h.start_ptr == h.free_ptr || noNext h.mem h.free_ptr then
    let fp := h.free_ptr
    let m2 := writeW (writeW h.mem fp size) (fp + 8) 0
    ({ h with mem := m2, last_unalloc := (fp + 16) + (size : Int) + 8 },
     some (fp + 16))
  else
    ffLoop mallocFuel h h.free_ptr 0 size

/-- free (lines 163-174): the link is placed at
`(intptr_t)ptr - sizeof(size_t)` (line 166, where the source drops `ptr`
from the cast; restored after the identical computation at line 243, and
line 167's `header_addr` read as the `head_addr` just declared), so its
`next` field sits at `(ptr - 8) + 8 = ptr` and receives the current head;
then `free_ptr = ptr` — the payload pointer itself, unconditionally, with
no null check anywhere. -/
def free (h : Heap) (ptr : Int) : Heap :=
  { h with mem := writeW h.mem ((ptr - 8) + 8) h.free_ptr.toNat,
           free_ptr := ptr }

/-- memcpy(dst, src, n): bytes read from the memory as it is when the copy
starts. -/
def memcpy (m : Mem) (dst src : Int) : Nat → Mem
  | 0 => m
  | k + 1 => setB (memcpy m dst src k) (dst + (k : Int)) (m (src + (k : Int)))

/-- bzero(a, n). -/
def bzero (m : Mem) (a : Int) : Nat → Mem
  | 0 => m
  | k + 1 => setB (bzero m a k) (a + (k : Int)) 0

/-- calloc (lines 199-208): `nmemb * size` is a `size_t` product, `assert`
aborts on a NULL result, then `bzero` clears the block. -/
def calloc (h : Heap) (nmemb size : Nat) : Heap × Option Int :=
  let block_size := (nmemb * size) % 18446744073709551616
  let r := malloc h block_size
  match r.2 with
  | some q =>
    if q = 0 then ({ r.1 with fatal := true }, none)
    else ({ r.1 with mem := bzero r.1.mem q block_size }, some q)
  | none => (r.1, none)

/-- realloc (lines 232-257): NULL pointer falls back to malloc; size 0
frees and returns NULL; otherwise the "size" is the word at
`ptr - sizeof(size_t)` (lines 243-244), the shrink branch returns `ptr`,
and the grow branch mallocs, asserts, copies `block_size` bytes, frees the
old pointer and returns the new one. -/
def realloc (h : Heap) (ptr : Int) (size : Nat) : Heap × Option Int :=
  if ptr = 0 then malloc h size
  else if size = 0 then (free h ptr, some 0)
  else
    let block_size := readW h.mem (ptr - 8)
    if size ≤ block_size then (h, some ptr)
    else
      let r := malloc h size
      match r.2 with
      | some q =>
        if q = 0 then ({ r.1 with fatal := true }, none)
        else (free { r.1 with mem := memcpy r.1.mem q ptr block_size } ptr,
              some q)
      | none => (r.1, none)

/-- State after the first allocation of the process: `malloc(8)` reserves
the arena at `mmapBase = 4096` and hands out payload 4112 (header at 4096,
recorded size 8). -/
def h8 : Heap := (malloc initState 8).1

/-- State after that block is released: the list head becomes 4112. -/
def hf : Heap := free h8 4112

/-- State `h8` with the caller having stored byte 171 at its payload. -/
def h8s : Heap := { h8 with mem := setB h8.mem 4112 171 }

/-! Memory-model lemmas. -/

theorem setB_self (m : Mem) (a : Int) (b : Nat) : setB m a b a = b := by
  simp [setB]

theorem setB_other (m : Mem) (a : Int) (b : Nat) (x : Int) (h : x ≠ a) :
    setB m a b x = m x := by
  simp [setB, h]

theorem writeW_at0 (m : Mem) (a : Int) (v : Nat) : writeW m a v a = v % 256 := by
  simp [writeW]

theorem writeW_at1 (m : Mem) (a : Int) (v : Nat) :
    writeW m a v (a + 1) = v / 256 % 256 := by
  have h0 : a + 1 ≠ a := by omega
  simp [writeW, h0]

theorem writeW_at2 (m : Mem) (a : Int) (v : Nat) :
    writeW m a v (a + 2) = v / 65536 % 256 := by
  have h0 : a + 2 ≠ a := by omega
  have h1 : a + 2 ≠ a + 1 := by omega
  simp [writeW, h0, h1]

theorem writeW_at3 (m : Mem) (a : Int) (v : Nat) :
    writeW m a v (a + 3) = v / 16777216 % 256 := by
  have h0 : a + 3 ≠ a := by omega
  have h1 : a + 3 ≠ a + 1 := by omega
  have h2 : a + 3 ≠ a + 2 := by omega
  simp [writeW, h0, h1, h2]

theorem writeW_at4 (m : Mem) (a : Int) (v : Nat) :
    writeW m a v (a + 4) = v / 4294967296 % 256 := by
  have h0 : a + 4 ≠ a := by omega
  have h1 : a + 4 ≠ a + 1 := by omega
  have h2 : a + 4 ≠ a + 2 := by omega
  have h3 : a + 4 ≠ a + 3 := by omega
  simp [writeW, h0, h1, h2, h3]

theorem writeW_at5 (m : Mem) (a : Int) (v : Nat) :
    writeW m a v (a + 5) = v / 1099511627776 % 256 := by
  have h0 : a + 5 ≠ a := by omega
  have h1 : a + 5 ≠ a + 1 := by omega
  have h2 : a + 5 ≠ a + 2 := by omega
  have h3 : a + 5 ≠ a + 3 := by omega
  have h4 : a + 5 ≠ a + 4 := by omega
  simp [writeW, h0, h1, h2, h3, h4]

theorem writeW_at6 (m : Mem) (a : Int) (v : Nat) :
    writeW m a v (a + 6) = v / 281474976710656 % 256 := by
  have h0 : a + 6 ≠ a := by omega
  have h1 : a + 6 ≠ a + 1 := by omega
  have h2 : a + 6 ≠ a + 2 := by omega
  have h3 : a + 6 ≠ a + 3 := by omega
  have h4 : a + 6 ≠ a + 4 := by omega
  have h5 : a + 6 ≠ a + 5 := by omega
  simp [writeW, h0, h1, h2, h3, h4, h5]

theorem writeW_at7 (m : Mem) (a : Int) (v : Nat) :
    writeW m a v (a + 7) = v / 72057594037927936 % 256 := by
  have h0 : a + 7 ≠ a := by omega
  have h1 : a + 7 ≠ a + 1 := by omega
  have h2 : a + 7 ≠ a + 2 := by omega
  have h3 : a + 7 ≠ a + 3 := by omega
  have h4 : a + 7 ≠ a + 4 := by omega
  have h5 : a + 7 ≠ a + 5 := by omega
  have h6 : a + 7 ≠ a + 6 := by omega
  simp [writeW, h0, h1, h2, h3, h4, h5, h6]

theorem writeW_outside (m : Mem) (a : Int) (v : Nat) (x : Int)
    (hx : x < a ∨ a + 8 ≤ x) : writeW m a v x = m x := by
  have h0 : x ≠ a := by omega
  have h1 : x ≠ a + 1 := by omega
  have h2 : x ≠ a + 2 := by omega
  have h3 : x ≠ a + 3 := by omega
  have h4 : x ≠ a + 4 := by omega
  have h5 : x ≠ a + 5 := by omega
  have h6 : x ≠ a + 6 := by omega
  have h7 : x ≠ a + 7 := by omega
  simp [writeW, h0, h1, h2, h3, h4, h5, h6, h7]

/-- Reading back the word just written yields the value reduced mod 2^64. -/
theorem readW_writeW (m : Mem) (a : Int) (v : Nat) :
    readW (writeW m a v) a = v % 18446744073709551616 := by
  rw [readW, writeW_at0, writeW_at1, writeW_at2, writeW_at3, writeW_at4,
    writeW_at5, writeW_at6, writeW_at7]
  omega

/-- A word read whose 8 bytes do not meet the 8 written bytes is unchanged. -/
theorem readW_writeW_disjoint (m : Mem) (a : Int) (v : Nat) (b : Int)
    (hb : b + 8 ≤ a ∨ a + 8 ≤ b) :
    readW (writeW m a v) b = readW m b := by
  rw [readW, readW,
    writeW_outside m a v b (by omega),
    writeW_outside m a v (b + 1) (by omega),
    writeW_outside m a v (b + 2) (by omega),
    writeW_outside m a v (b + 3) (by omega),
    writeW_outside m a v (b + 4) (by omega),
    writeW_outside m a v (b + 5) (by omega),
    writeW_outside m a v (b + 6) (by omega),
    writeW_outside m a v (b + 7) (by omega)]

/-- Every byte inside a `bzero`ed range reads 0. -/
theorem bzero_read (m : Mem) (a : Int) :
    ∀ len i : Nat, i < len → bzero m a len (a + (i : Int)) = 0 := by
  intro len
  induction len with
  | zero => intro i hi; exact absurd hi (by omega)
  | succ k ih =>
    intro i hi
    by_cases hik : i = k
    · subst hik
      simp [bzero, setB]
    · have hne : (a + (i : Int)) ≠ (a + (k : Int)) := by omega
      simp only [bzero]
      rw [setB_other _ _ _ _ hne]
      exact ih i (by omega)

/-! Allocator-level helper lemmas (shared by several claim theorems). -/

/-- The init guard: any non-null `free_ptr` makes init a no-op. -/
theorem init_skip (h : Heap) (hfp : h.free_ptr ≠ 0) : init h = h := by
  simp [init, hfp]

/-- The scan never performs an OS reservation. -/
theorem ffLoop_reservations :
    ∀ (fuel : Nat) (h : Heap) (it prev : Int) (s : Nat),
      (ffLoop fuel h it prev s).1.reservations = h.reservations := by
  intro fuel
  induction fuel with
  | zero => intro h it prev s; rfl
  | succ k ih =>
    intro h it prev s
    simp only [ffLoop]
    split_ifs with h1 h2 h3
    · simp [bump]
    · rfl
    · rfl
    · exact ih h _ _ s

/-- malloc only reserves through init. -/
theorem malloc_reservations (h : Heap) (s : Nat) :
    (malloc h s).1.reservations = (init h).reservations := by
  simp only [malloc]
  split_ifs with h1 h2
  · rfl
  · rfl
  · exact ffLoop_reservations mallocFuel (init h) (init h).free_ptr 0 s

/-- For a pointer whose word at `ptr - 8` is 0 (every allocated block: that
word is the header's `next` field, cleared at allocation), any positive
request makes realloc take its grow path and copy 0 bytes. -/
theorem realloc_grow_zero (h : Heap) (p : Int) (n : Nat) (hp : p ≠ 0)
    (hn : 0 < n) (hz : readW h.mem (p - 8) = 0) :
    realloc h p n =
      match (malloc h n).2 with
      | some q =>
        if q = 0 then ({ (malloc h n).1 with fatal := true }, none)
        else (free (malloc h n).1 p, some q)
      | none => ((malloc h n).1, none) := by
  have hn0 : ¬(n = 0) := by omega
  simp only [realloc, if_neg hp, if_neg hn0, hz]
  rw [if_neg (by omega)]
  rcases hq : (malloc h n).2 with _ | q
  · simp [hq]
  · simp only [hq]
    by_cases hq0 : q = 0
    · simp [hq0]
    · simp only [if_neg hq0]
      rfl

/-! Claim theorems. -/

/-- Claim C1 (code bug, evaluated at the failing input).  From a fresh heap,
`malloc(8)` hands out payload 4112 (header 4096, recorded size 8) and
`free(4112)` makes it the sole free-list node.  The claim (and the code's
own comments, lines 91 and 109) require a fitting request to unlink that
node and return its payload 4112; instead the scan recovers the header at
`payload - sizeof(size_t)` although payloads were issued at
`header + sizeof(link_s)`, compares the request against the word at 4104
(the real header's `next` field, 0 — so no positive request ever fits),
and a request of 0, which does fit, returns 4120 = 4112 + 8 instead of the
block's payload, leaving the node's link word unset. -/
theorem malloc_firstfit_offset_eval :
    (malloc hf 0).2 = some 4120 ∧ (malloc hf 0).2 ≠ some 4112
      ∧ (malloc hf 0).1.free_ptr = 4096 ∧ readW hf.mem 4096 = 8 := by
  decide

/-- Claim C2 (code bug, evaluated at the failing input).  From `hf`
(one freed block, head 4112), `malloc(1)` exhausts the scan and runs the
carve path: the requested size 1 is written into the new header (word 1 at
4120), its `next` is cleared (word 0 at 4128) and the frontier advances
from 4128 to 4145 = 4128 + sizeof(link_s) + 1, exactly as the claim says —
but the path has no `return` statement (line 151), so no payload address
is returned: the result is `none`, not the new payload. -/
theorem malloc_bump_no_return_eval :
    (malloc hf 1).2 = none ∧ readW (malloc hf 1).1.mem 4120 = 1
      ∧ readW (malloc hf 1).1.mem 4128 = 0
      ∧ hf.last_unalloc = 4128 ∧ (malloc hf 1).1.last_unalloc = 4145 := by
  decide

/-- Claim C3 (code bug, evaluated at the failing input).  Two consecutive
allocations from a fresh heap both return payload 4112: the edge-path
guard (line 94) compares `start_ptr` with `free_ptr`, and the edge path
never advances `free_ptr`, so — contrary to the code's own comment
"edge case: we have not allocated any blocks" (line 93) — the second
`malloc(8)` carves at the very same address and the two live payload
regions coincide. -/
theorem malloc_overlap_eval :
    (malloc initState 8).2 = some 4112 ∧ (malloc h8 8).2 = some 4112 := by
  decide

/-- Claim C4 counterexample.  After `malloc(8)` returns payload 4112 with
header 4096 (payload = header + sizeof(link_s)), `free(4112)` sets
`free_ptr` to 4112 itself — the released payload pointer — not to the
block's header 4096 = 4112 - 16 (nor to 4104 = 4112 - 8, the address the
source's own subtraction names), refuting the claim that the free-list
head is made to point to the header computed as pointer - header_size. -/
theorem free_head_not_header_cex :
    hf.free_ptr = 4112 ∧ hf.free_ptr ≠ 4112 - 16 ∧ hf.free_ptr ≠ 4112 - 8 := by
  decide

/-- Claim C4 as amended.  `free(p)` places a link struct at
`p - sizeof(size_t)`, so the current head is stored into the word at `p`
itself, and `free_list_head` is set to `p` — the payload pointer, not the
header — making the most-recently-released pointer the new list head
(LIFO insertion); no byte outside the 8 at `p` changes. -/
theorem free_lifo_push :
    (∀ (h : Heap) (p : Int),
      free h p = { h with mem := writeW h.mem p h.free_ptr.toNat,
                          free_ptr := p })
    ∧ (∀ (h : Heap) (p : Int),
        readW (free h p).mem p = h.free_ptr.toNat % 18446744073709551616)
    ∧ (∀ (h : Heap) (p a : Int), a + 8 ≤ p ∨ p + 8 ≤ a →
        readW (free h p).mem a = readW h.mem a) := by
  refine ⟨?_, ?_, ?_⟩
  · intro h p
    simp only [free]
    rw [show p - 8 + 8 = p from by omega]
  · intro h p
    simp only [free]
    rw [show p - 8 + 8 = p from by omega]
    exact readW_writeW h.mem p h.free_ptr.toNat
  · intro h p a ha
    simp only [free]
    rw [show p - 8 + 8 = p from by omega]
    exact readW_writeW_disjoint h.mem p h.free_ptr.toNat a ha

/-- Witness for the amended C4 theorem at a concrete input. -/
theorem free_lifo_push_w :
    readW (free h8 4112).mem 4096 = readW h8.mem 4096
      ∧ (free h8 4112).free_ptr = 4112 := by
  refine ⟨free_lifo_push.2.2 h8 4112 4096 (Or.inl (by decide)), ?_⟩
  rw [free_lifo_push.1 h8 4112]

/-- Claim C5 counterexample.  In `h8s` the block at payload 4112 has
recorded size 8 (word at its header 4096) and the caller stored byte 171
at 4112.  The claim says `resize(4112, 4)` (0 < 4 ≤ 8) returns the pointer
unchanged with its content intact; instead the code reads the word at
4104 (the header's `next` field, 0) as the size, takes the grow path,
copies 0 bytes, and releases the block: the call happens to hand back
4112 (the edge path re-carves the same address), but the payload byte now
reads 0, not 171, and the block sits on the free list. -/
theorem realloc_shrink_cex :
    readW h8s.mem 4096 = 8 ∧ h8s.mem 4112 = 171
      ∧ (realloc h8s 4112 4).2 = some 4112
      ∧ (realloc h8s 4112 4).1.mem 4112 = 0
      ∧ (realloc h8s 4112 4).1.free_ptr = 4112 := by
  decide

/-- Claim C5 as amended.  `resize(null, n)` is exactly `allocate(n)`;
`resize(p, 0)` with `p` non-null releases `p` and returns null; and for
`p` non-null and `n > 0`, resize takes the word at `p - sizeof(size_t)` —
the `next` field of the header that precedes the payload by
`sizeof(link_s)`, not the recorded size — as the block's size, so for an
allocated block (that word is 0) every positive `n` takes the grow path:
a new block is allocated, 0 bytes are copied, `p` is released, and the
new pointer is returned. -/
theorem realloc_grow_only_amended :
    (∀ (h : Heap) (n : Nat), realloc h 0 n = malloc h n)
    ∧ (∀ (h : Heap) (p : Int), p ≠ 0 → realloc h p 0 = (free h p, some 0))
    ∧ (∀ (h : Heap) (p : Int) (n : Nat), p ≠ 0 → 0 < n →
        readW h.mem (p - 8) = 0 →
        realloc h p n =
          match (malloc h n).2 with
          | some q =>
            if q = 0 then ({ (malloc h n).1 with fatal := true }, none)
            else (free (malloc h n).1 p, some q)
          | none => ((malloc h n).1, none)) := by
  refine ⟨?_, ?_, ?_⟩
  · intro h n
    simp [realloc]
  · intro h p hp
    simp [realloc, hp]
  · intro h p n hp hn hz
    exact realloc_grow_zero h p n hp hn hz

/-- Witness for the amended C5 theorem at a concrete input. -/
theorem realloc_grow_only_amended_w :
    (realloc h8 4112 5).2 = some 4112
      ∧ (realloc h8 4112 5).1.free_ptr = 4112 := by
  have e := realloc_grow_only_amended.2.2 h8 4112 5 (by decide) (by decide)
    (by decide)
  rw [e]
  decide

/-- Claim C6 (confirmed).  Under the assertion's success (malloc produced a
non-null pointer `q`), `zero_allocate(count, size)` is exactly
`allocate(count * size)` followed by zeroing every byte of the returned
region and returning the same pointer, and every byte of that region
reads 0 immediately after the call. -/
theorem calloc_zero_fill (h : Heap) (n m : Nat) (q : Int)
    (hm : (malloc h ((n * m) % 18446744073709551616)).2 = some q)
    (hq : q ≠ 0) :
    calloc h n m =
      ({ (malloc h ((n * m) % 18446744073709551616)).1 with
         mem := bzero (malloc h ((n * m) % 18446744073709551616)).1.mem q
           ((n * m) % 18446744073709551616) }, some q)
    ∧ ∀ i : Nat, i < (n * m) % 18446744073709551616 →
        (calloc h n m).1.mem (q + (i : Int)) = 0 := by
  have e : calloc h n m =
      ({ (malloc h ((n * m) % 18446744073709551616)).1 with
         mem := bzero (malloc h ((n * m) % 18446744073709551616)).1.mem q
           ((n * m) % 18446744073709551616) }, some q) := by
    simp only [calloc, hm]
    simp [hq]
  refine ⟨e, ?_⟩
  intro i hi
  rw [e]
  exact bzero_read _ q _ i hi

/-- Witness for the C6 theorem at a concrete input. -/
theorem calloc_zero_fill_w :
    (calloc initState 2 3).2 = some 4112
      ∧ (calloc initState 2 3).1.mem (4112 + ((2 : Nat) : Int)) = 0 := by
  have e := calloc_zero_fill initState 2 3 4112 (by decide) (by decide)
  exact ⟨by rw [e.1], e.2 2 (by decide)⟩

/-- Claim C7 (confirmed).  On the first call (`free_ptr = 0`, the
zero-initialized static): if the OS reservation fails the process
terminates immediately (`exit(1)`, the `fatal` flag — no error value, no
recoverable exception); otherwise exactly one reservation is performed and
`free_ptr = start_ptr = base` and `end_ptr = base + HEAP_SIZE` are
established — `free_ptr = base` is simultaneously the initial carve
cursor (the frontier at base) and the code's encoding of the empty free
list (the guard `start_ptr == free_ptr`, line 94).  Any call finding
`free_ptr ≠ 0` — in particular any call after a successful first one — is
a no-op. -/
theorem init_idempotent_fatal :
    (∀ h : Heap, h.free_ptr = 0 → h.mmapFails = true →
      init h = { h with fatal := true })
    ∧ (∀ h : Heap, h.free_ptr = 0 → h.mmapFails = false →
        init h = { h with free_ptr := mmapBase, start_ptr := mmapBase,
                          end_ptr := mmapBase + HEAP_SIZE,
                          reservations := h.reservations + 1 })
    ∧ (∀ h : Heap, h.free_ptr ≠ 0 → init h = h) := by
  refine ⟨?_, ?_, ?_⟩
  · intro h h1 h2
    simp [init, h1, h2]
  · intro h h1 h2
    simp [init, h1, h2]
  · intro h h1
    exact init_skip h h1

/-- Witness for the C7 theorem at concrete inputs. -/
theorem init_idempotent_fatal_w :
    init { initState with mmapFails := true } =
      { { initState with mmapFails := true } with fatal := true }
    ∧ init initState =
      { initState with free_ptr := mmapBase, start_ptr := mmapBase,
                       end_ptr := mmapBase + HEAP_SIZE,
                       reservations := initState.reservations + 1 }
    ∧ init (init initState) = init initState := by
  exact ⟨init_idempotent_fatal.1 _ rfl rfl,
    init_idempotent_fatal.2.1 _ rfl rfl,
    init_idempotent_fatal.2.2 _ (by decide)⟩

/-- Claim C8 (code bug, evaluated at the failing input).  `free` has no
null check: `free(NULL)` places its link at `NULL - sizeof(size_t)`,
writing the current head into the word at address 0 (a null-page write
that faults a real process) and setting `free_ptr` to null — which
re-arms the init guard — instead of returning without modifying
anything. -/
theorem free_null_not_noop_eval :
    h8.free_ptr = 4096 ∧ (free h8 0).free_ptr = 0
      ∧ readW (free h8 0).mem 0 = 4096 ∧ readW h8.mem 0 = 0 := by
  decide

/-- Claim C9 (confirmed).  Payloads are issued at
`header + sizeof(link_s)` but realloc recovers the "size" at
`payload - sizeof(size_t)`, i.e. at the header's `next_free` field
(`(p - 16) + 8 = p - 8`).  For any allocated block — one whose `next_free`
word reads the null sentinel 0 — and any `n > 0`, `resize(p, n)` therefore
treats 0 as the block's size, takes the grow path (new allocation, release
of `p`, new pointer returned), and the copy it performs moves
`readW (p - 8) = 0` bytes, i.e. no old content at all. -/
theorem realloc_reads_next_as_size (h : Heap) (p : Int) (n : Nat) (q : Int)
    (hp : p ≠ 0) (hn : 0 < n) (hz : readW h.mem (p - 8) = 0)
    (hq : (malloc h n).2 = some q) (hq0 : q ≠ 0) :
    realloc h p n =
      (free { (malloc h n).1 with
              mem := memcpy (malloc h n).1.mem q p (readW h.mem (p - 8)) } p,
       some q)
    ∧ memcpy (malloc h n).1.mem q p (readW h.mem (p - 8)) =
        (malloc h n).1.mem := by
  constructor
  · rw [realloc_grow_zero h p n hp hn hz, hq, hz]
    simp only [if_neg hq0, memcpy]
  · rw [hz]
    rfl

/-- Witness for the C9 theorem at a concrete input. -/
theorem realloc_reads_next_as_size_w :
    realloc h8 4112 7 =
      (free { (malloc h8 7).1 with
              mem := memcpy (malloc h8 7).1.mem 4112 4112
                (readW h8.mem (4112 - 8)) } 4112,
       some 4112)
    ∧ memcpy (malloc h8 7).1.mem 4112 4112 (readW h8.mem (4112 - 8)) =
        (malloc h8 7).1.mem :=
  realloc_reads_next_as_size h8 4112 7 4112 (by decide) (by decide)
    (by decide) (by decide) (by decide)

/-- Claim C10 (confirmed).  Initialization is guarded solely by
`free_ptr = 0`, and `free` stores its argument into `free_ptr`
unconditionally; hence calling `release(p)` with `p ≠ 0` on the fresh
process state satisfies the guard while the reservation count is still 0,
and every allocate call made in a state whose `free_ptr` is non-null —
as it is from then on — performs no OS reservation at all. -/
theorem free_bypasses_init_guard :
    (∀ h : Heap, h.free_ptr ≠ 0 → init h = h)
    ∧ (∀ (h : Heap) (p : Int), (free h p).free_ptr = p)
    ∧ (∀ p : Int, p ≠ 0 →
        (free initState p).reservations = 0
          ∧ (free initState p).free_ptr ≠ 0)
    ∧ (∀ (h : Heap) (s : Nat), h.free_ptr ≠ 0 →
        (malloc h s).1.reservations = h.reservations) := by
  refine ⟨init_skip, fun h p => rfl, ?_, ?_⟩
  · intro p hp
    exact ⟨rfl, hp⟩
  · intro h s hfp
    rw [malloc_reservations, init_skip h hfp]

/-- Witness for the C10 theorem at concrete inputs. -/
theorem free_bypasses_init_guard_w :
    ((free initState 5).reservations = 0 ∧ (free initState 5).free_ptr ≠ 0)
    ∧ (malloc (free initState 5) 3).1.reservations =
        (free initState 5).reservations :=
  ⟨free_bypasses_init_guard.2.2.1 5 (by decide),
   free_bypasses_init_guard.2.2.2 (free initState 5) 3 (by decide)⟩

end PbAlloc
